import Mathlib

/-!
Shallow embedding of the Exa MCP server (`server.py`) and its standalone
connectivity-check script (`test_connection.py`), together with theorems
settling the behavioural claims about the dispatcher, the five tool
handlers, the result formatting, and the exit-code policy.

Conventions of the embedding:
* Python strings are Lean `String`s; Python `None`-able values are `Option`s.
* The Exa client is an external collaborator; a handler call to it is a
  `NetOp` answered by an oracle `Collab`.  Each dispatcher run also returns
  the list of network operations attempted, so that "no network operation
  was attempted" is the statement "the trace is `[]`".
* A Python exception is a `PyExn` (its `str()` plus whether it is a
  `ValueError`, which the dispatcher distinguishes).  The dispatcher
  catches everything, so its own result type has no exception alternative,
  mirroring the `try/except` structure of `handle_call_tool`.
-/

namespace ExaMcp

set_option maxRecDepth 16384

/-- The single-quote character, written via its code point. -/
def sq : String := String.singleton (Char.ofNat 39)

/-- Substring containment, via list infixes on the underlying characters. -/
def strContains (s pat : String) : Prop := pat.toList <:+: s.toList

/-- String prefix, via list prefixes on the underlying characters. -/
def strStarts (pat s : String) : Prop := pat.toList <+: s.toList

instance (s pat : String) : Decidable (strContains s pat) :=
  List.decidableInfix _ _

instance (pat s : String) : Decidable (strStarts pat s) :=
  inferInstanceAs (Decidable (_ <+: _))

theorem toList_append (a b : String) : (a ++ b).toList = a.toList ++ b.toList := by
  simp [String.toList, String.data_append]

theorem strContains_mid (a pat b : String) : strContains (a ++ pat ++ b) pat := by
  unfold strContains
  rw [toList_append, toList_append]
  exact List.infix_append _ _ _

theorem strContains_left {a pat : String} (h : strContains a pat) (b : String) :
    strContains (a ++ b) pat := by
  unfold strContains at *
  rw [toList_append]
  obtain ⟨s, t, hst⟩ := h
  exact ⟨s, t ++ b.toList, by rw [← hst]; simp [List.append_assoc]⟩

theorem strContains_right {b pat : String} (h : strContains b pat) (a : String) :
    strContains (a ++ b) pat := by
  unfold strContains at *
  rw [toList_append]
  obtain ⟨s, t, hst⟩ := h
  exact ⟨a.toList ++ s, t, by rw [← hst]; simp [List.append_assoc]⟩

theorem strStarts_of_append {pat a : String} (h : strStarts pat a) (b : String) :
    strStarts pat (a ++ b) := by
  unfold strStarts at *
  rw [toList_append]
  exact h.trans ((a.toList).prefix_append (b.toList))

/-- A string whose characters start with `c` cannot have a prefix starting
with a different character. -/
theorem not_strStarts_of_head {pat s : String} {c d : Char} {l₁ l₂ : List Char}
    (h1 : pat.toList = c :: l₁) (h2 : s.toList = d :: l₂) (hne : c ≠ d) :
    ¬ strStarts pat s := by
  unfold strStarts
  rw [h1, h2]
  intro hp
  exact hne (List.cons_prefix_cons.mp hp).1

/-- Take the first `n` characters of a string (Python slicing `s[:n]`). -/
def takeChars (n : Nat) (s : String) : String := String.mk (s.toList.take n)

/-- Python `str.strip()`: drop leading and trailing whitespace characters. -/
def pyStrip (s : String) : String :=
  String.mk (((s.toList.dropWhile Char.isWhitespace).reverse.dropWhile
    Char.isWhitespace).reverse)

/-- A dynamically-typed Python value appearing in a `score` field: either an
actual number or some other object carrying its `str()` form. -/
inductive PyVal where
  | num (q : ℚ)
  | str (s : String)
deriving DecidableEq

/-- Digits of a decimal literal folded into a natural number. -/
def digitsToNat (cs : List Char) : Nat :=
  cs.foldl (fun a c => a * 10 + (c.toNat - 48)) 0

/-- Python `float(s)` on a string, for plain decimal literals: an optional
sign, then digits with an optional fractional part.  Returns `none` when the
conversion raises `ValueError` (e.g. on `"high"`). -/
def pyFloatOfString (s : String) : Option ℚ :=
  let cs := s.toList
  let signed : ℚ × List Char :=
    match cs with
    | c :: rest => if c = Char.ofNat 45 then (-1, rest)
        else if c = Char.ofNat 43 then (1, rest) else (1, cs)
    | [] => (1, cs)
  let sgn := signed.1
  let body := signed.2
  let intPart := body.takeWhile Char.isDigit
  let rest := body.dropWhile Char.isDigit
  match rest with
  | [] => if intPart.isEmpty then none else some (sgn * digitsToNat intPart)
  | c :: frac =>
    if c = Char.ofNat 46 && frac.all Char.isDigit &&
        !(intPart.isEmpty && frac.isEmpty) then
      some (sgn * ((digitsToNat intPart : ℚ) +
        (digitsToNat frac : ℚ) / ((10 : ℚ) ^ frac.length)))
    else none

/-- `float()` applied to a dynamically-typed value. -/
def pyFloatOfVal : PyVal → Option ℚ
  | PyVal.num q => some q
  | PyVal.str s => pyFloatOfString s

/-- The `str()` form of a dynamically-typed value (for scores the `num` case
never reaches the fallback branch, since numbers always convert). -/
def pyStrOfVal : PyVal → String
  | PyVal.num q => toString q
  | PyVal.str s => s

/-- Left-pad the fractional digits to width 3. -/
def pad3 (k : Nat) : String :=
  if k < 10 then "00" ++ toString k
  else if k < 100 then "0" ++ toString k
  else toString k

/-- Round to the nearest integer, ties to even (the rounding used by
Python float formatting). -/
def roundHalfEven (q : ℚ) : ℤ :=
  let f := ⌊q⌋
  let r := q - (f : ℚ)
  if r < 1 / 2 then f
  else if 1 / 2 < r then f + 1
  else if f % 2 = 0 then f else f + 1

/-- Python `f"{x:.3f}"`: fixed-point notation with exactly three digits
after the decimal point. -/
def formatFixed3 (q : ℚ) : String :=
  let n := roundHalfEven (q * 1000)
  let signPart := if q < 0 then "-" else ""
  signPart ++ toString (n.natAbs / 1000) ++ "." ++ pad3 (n.natAbs % 1000)

/-- `safe_format_score` from `server.py`: `None` becomes `"N/A"`, a value
convertible by `float()` is rendered `:.3f`, anything else falls back to its
literal string form. -/
def safe_format_score : Option PyVal → String
  | Option.none => "N/A"
  | some (PyVal.num q) => formatFixed3 q
  | some (PyVal.str s) =>
    match pyFloatOfString s with
    | some q => formatFixed3 q
    | Option.none => s

/-- `safe_get_attr` from `server.py`, applied to an already-fetched optional
attribute value: the value when present, the default otherwise. -/
def safe_get_attr (v : Option String) (default : String) : String :=
  match v with
  | some s => s
  | Option.none => default

/-! ### Data model of the server -/

/-- A Python exception: its `str()` and whether it is a `ValueError` (the
only distinction `handle_call_tool` makes). -/
structure PyExn where
  isValueError : Bool
  msg : String
deriving DecidableEq

/-- `str(KeyError(k))` renders the missing key in single quotes. -/
def keyError (k : String) : PyExn := ⟨false, sq ++ k ++ sq⟩

/-- `get_exa_client` from `server.py`: a missing (or empty) `EXA_API_KEY`
environment value raises a `ValueError` with remediation text. -/
def get_exa_client (env : Option String) : Except PyExn Unit :=
  match env with
  | Option.none => Except.error ⟨true,
      "EXA_API_KEY environment variable is required. Get your key from https://exa.ai/"⟩
  | some k =>
    if k = "" then Except.error ⟨true,
      "EXA_API_KEY environment variable is required. Get your key from https://exa.ai/"⟩
    else Except.ok ()

/-- One result object returned by the Exa collaborator; every field may be
absent (`getattr` with a `None` default in the source). -/
structure ResultItem where
  title : Option String := Option.none
  url : Option String := Option.none
  score : Option PyVal := Option.none
  published_date : Option String := Option.none
  text : Option String := Option.none
deriving DecidableEq

/-- The collaborator response object: its `.results` list. -/
structure ExaResponse where
  results : List ResultItem
deriving DecidableEq

/-- A network operation requested from the Exa collaborator, with the
request parameters the handlers pass. -/
inductive NetOp where
  | search (query : String) (num_results : Nat)
      (start_published_date : Option String) (searchType : Option String)
      (use_autoprompt : Bool)
  | getContents (url : String)
  | findSimilar (url : String) (num_results : Nat)
deriving DecidableEq

/-- Outcome of one collaborator call: a response object, or a raised fault
with the given `str()` message. -/
inductive CollabOutcome where
  | ok (v : ExaResponse)
  | fault (msg : String)
deriving DecidableEq

/-- The external collaborator, as an oracle answering each operation. -/
def Collab : Type := NetOp → CollabOutcome

/-- The argument mapping of a tool call, restricted to the keys the five
schemas declare; any key may be absent. -/
structure Arguments where
  query : Option String := Option.none
  url : Option String := Option.none
  text : Option String := Option.none
  num_results : Option Nat := Option.none
  days_back : Option Nat := Option.none
deriving DecidableEq

/-- A naive `datetime.now()` value: whole days since the epoch plus a
time-of-day component (which date-only formatting must ignore). -/
structure PyDateTime where
  epochDays : ℤ
  secsOfDay : Nat
deriving DecidableEq

/-- Result of running one handler: a returned list of text contents together
with the network operations attempted, or a raised exception (only the
`KeyError` on a missing required argument escapes the handlers, since each
body of each handler is wrapped in its own `try/except`). -/
inductive HRes where
  | returned (texts : List String) (ops : List NetOp)
  | raised (e : PyExn)
deriving DecidableEq

/-! ### Result formatting shared by the list-returning handlers -/

/-- Characters of the mojibake emoji prefixes exactly as they occur in the
string literals of the source file. -/
def chars (cs : List Nat) : String := String.mk (cs.map Char.ofNat)

def emSearch : String := chars [0x11f, 0x178, 0x201d]

def emPin : String := chars [0x11f, 0x178, 0x201c]

def emStar : String := chars [0xe2, 0xad]

def emCal : String := chars [0x11f, 0x178, 0x201c, 0x2026]

def emPage : String := chars [0x11f, 0x178, 0x201c, 0x201e]

def emLink : String := chars [0x11f, 0x178, 0x201d, 0x2014]

def emClock : String := chars [0x11f, 0x178, 0x2022, 0x2019]

def emMemo : String := chars [0x11f, 0x178, 0x201c]

/-- The body of the result loop shared (verbatim, up to the score label) by
the four list-returning handlers: numbered title, URL line, score line, and
a publication-date line only when the date is present and non-empty. -/
def formatResultEntry (label : String) (i : Nat) (r : ResultItem) : String :=
  ("**" ++ toString i ++ ". " ++ safe_get_attr r.title "No title" ++ "**\n")
  ++ (emPin ++ " URL: " ++ safe_get_attr r.url "No URL" ++ "\n")
  ++ (emStar ++ " " ++ label ++ ": " ++ safe_format_score r.score ++ "\n")
  ++ (match r.published_date with
      | some d => if d = "" then "" else emCal ++ " Published: " ++ d ++ "\n"
      | Option.none => "")
  ++ "\n"

/-- `enumerate(results, 1)` followed by the shared loop body. -/
def formatResultEntries (label : String) (rs : List ResultItem) : String :=
  String.join ((rs.enumFrom 1).map fun p => formatResultEntry label p.1 p.2)

/-! ### Date formatting for the recency-filtered search -/

/-- Zero-pad a two-digit field. -/
def pad2 (n : Nat) : String :=
  if n < 10 then "0" ++ toString n else toString n

/-- Zero-pad the year to four digits. -/
def pad4 (y : ℤ) : String :=
  let a := y.natAbs
  let digits :=
    if a < 10 then "000" ++ toString a
    else if a < 100 then "00" ++ toString a
    else if a < 1000 then "0" ++ toString a
    else toString a
  (if y < 0 then "-" else "") ++ digits

/-- Proleptic Gregorian civil date (year, month, day) of a day count since
1970-01-01 (the calendar `datetime` uses). -/
def civilFromDays (z0 : ℤ) : ℤ × Nat × Nat :=
  let z := z0 + 719468
  let era : ℤ := Int.fdiv z 146097
  let doe : Nat := (z - era * 146097).toNat
  let yoe : Nat := (doe - doe / 1460 + doe / 36524 - doe / 146096) / 365
  let y : ℤ := (yoe : ℤ) + era * 400
  let doy : Nat := doe - (365 * yoe + yoe / 4 - yoe / 100)
  let mp : Nat := (5 * doy + 2) / 153
  let d : Nat := doy - (153 * mp + 2) / 5 + 1
  let m : Nat := if mp < 10 then mp + 3 else mp - 9
  (if m ≤ 2 then y + 1 else y, m, d)

/-- `strftime("%Y-%m-%d")` of a naive datetime falling on the given day
count: date-only precision, no time component. -/
def strftimeYMD (z : ℤ) : String :=
  let c := civilFromDays z
  pad4 c.1 ++ "-" ++ pad2 c.2.1 ++ "-" ++ pad2 c.2.2

/-! ### The five tool handlers -/

/-- `_search_web_semantic`: semantic search with `use_autoprompt=True`. -/
def search_web_semantic (collab : Collab) (args : Arguments) : HRes :=
  match args.query with
  | Option.none => HRes.raised (keyError "query")
  | some query =>
    let num_results := args.num_results.getD 5
    let op := NetOp.search query num_results Option.none Option.none true
    match collab op with
    | CollabOutcome.fault e =>
      HRes.returned ["Web search failed: " ++ e ++
        ". Please check your query and try again."] [op]
    | CollabOutcome.ok r =>
      if r.results.isEmpty then
        HRes.returned ["No results found for query: " ++ sq ++ query ++ sq ++
          ". Try a different search term or broader query."] [op]
      else
        HRes.returned [emSearch ++ " **Semantic Search Results for: " ++ sq ++
          query ++ sq ++ "**\n\n" ++
          "Found " ++ toString r.results.length ++ " relevant results:\n\n" ++
          formatResultEntries "Relevance Score" r.results] [op]

/-- The content section of `_extract_page_content` (source lines 248-257):
truthiness test on the raw text, strip, then the 3000-character truncation
rule on the stripped text. -/
def renderContentSection (text_content : Option String) : String :=
  match text_content with
  | some raw =>
    if raw = "" then "**Content:** Unable to extract readable text from this page."
    else
      let text := pyStrip raw
      if text.length > 3000 then
        "**Content (first 3000 characters):**\n" ++ takeChars 3000 text ++
          "...\n\n" ++ "*[Content truncated - total length: " ++
          toString text.length ++ " characters]*"
      else
        "**Content:**\n" ++ text
  | Option.none => "**Content:** Unable to extract readable text from this page."

/-- `_extract_page_content`: fetch the cleaned text of one URL. -/
def extract_page_content (collab : Collab) (args : Arguments) : HRes :=
  match args.url with
  | Option.none => HRes.raised (keyError "url")
  | some url =>
    let op := NetOp.getContents url
    match collab op with
    | CollabOutcome.fault e =>
      HRes.returned ["Content extraction failed for " ++ url ++ ": " ++ e ++
        ". The page might be blocked or require special access."] [op]
    | CollabOutcome.ok r =>
      match r.results with
      | [] =>
        HRes.returned ["Could not extract content from URL: " ++ url ++
          ". The page might be inaccessible or require authentication."] [op]
      | content :: _ =>
        let header := emPage ++ " **Content Extracted from: " ++
          safe_get_attr content.url url ++ "**\n\n"
        let title := safe_get_attr content.title "No title available"
        let titleSec :=
          if title = "No title available" then "" else "**Title:** " ++ title ++ "\n\n"
        HRes.returned [header ++ titleSec ++ renderContentSection content.text] [op]

/-- `_find_similar_pages`: similar-page discovery for a seed URL. -/
def find_similar_pages (collab : Collab) (args : Arguments) : HRes :=
  match args.url with
  | Option.none => HRes.raised (keyError "url")
  | some url =>
    let num_results := args.num_results.getD 5
    let op := NetOp.findSimilar url num_results
    match collab op with
    | CollabOutcome.fault e =>
      HRes.returned ["Similar pages search failed for " ++ url ++ ": " ++ e ++
        ". Please verify the URL is valid and accessible."] [op]
    | CollabOutcome.ok r =>
      if r.results.isEmpty then
        HRes.returned ["No similar pages found for: " ++ url ++
          ". Try a different URL or check if the URL is accessible."] [op]
      else
        HRes.returned [emLink ++ " **Pages Similar to: " ++ url ++ "**\n\n" ++
          "Found " ++ toString r.results.length ++ " similar pages:\n\n" ++
          formatResultEntries "Similarity Score" r.results] [op]

/-- `_search_recent_content`: search restricted by a start-publish-date
computed as `datetime.now() - timedelta(days=days_back)` and rendered with
`strftime("%Y-%m-%d")`. -/
def search_recent_content (now : PyDateTime) (collab : Collab)
    (args : Arguments) : HRes :=
  match args.query with
  | Option.none => HRes.raised (keyError "query")
  | some query =>
    let days_back := args.days_back.getD 7
    let num_results := args.num_results.getD 5
    let start_date_str := strftimeYMD (now.epochDays - days_back)
    let op := NetOp.search query num_results (some start_date_str) Option.none true
    match collab op with
    | CollabOutcome.fault e =>
      HRes.returned ["Recent content search failed: " ++ e ++
        ". Please try a different query."] [op]
    | CollabOutcome.ok r =>
      if r.results.isEmpty then
        HRes.returned ["No recent content found for " ++ sq ++ query ++ sq ++
          " in the last " ++ toString days_back ++
          " days. Try a broader query or increase the time range."] [op]
      else
        HRes.returned [emClock ++ " **Recent Content for: " ++ sq ++ query ++ sq ++
          "** (Last " ++ toString days_back ++ " days)\n\n" ++
          "Found " ++ toString r.results.length ++ " recent results:\n\n" ++
          formatResultEntries "Relevance Score" r.results] [op]

/-- `_search_by_example_text`: neural search with the literal text as the
query and `use_autoprompt=False`. -/
def search_by_example_text (collab : Collab) (args : Arguments) : HRes :=
  match args.text with
  | Option.none => HRes.raised (keyError "text")
  | some text =>
    let num_results := args.num_results.getD 5
    let op := NetOp.search text num_results Option.none (some "neural") false
    match collab op with
    | CollabOutcome.fault e =>
      HRes.returned ["Example text search failed: " ++ e ++
        ". Please try a different text sample."] [op]
    | CollabOutcome.ok r =>
      if r.results.isEmpty then
        HRes.returned ["No similar content found for the provided text sample. Try a longer or more specific text example."] [op]
      else
        let example_preview :=
          if text.length > 200 then takeChars 200 text ++ "..." else text
        HRes.returned [emMemo ++ " **Content Similar to Example Text:**\n\n" ++
          "**Example:** " ++ example_preview ++ "\n\n" ++
          "Found " ++ toString r.results.length ++ " similar results:\n\n" ++
          formatResultEntries "Similarity Score" r.results] [op]

/-! ### The dispatcher -/

/-- The five advertised tool names, in catalog order. -/
def toolNames : List String :=
  ["search_web_semantic", "extract_page_content", "find_similar_pages",
   "search_recent_content", "search_by_example_text"]

/-- `handle_call_tool` from `server.py`.  It resolves the credential, then
dispatches on the tool name, and converts every raised exception into a
returned text response (`ValueError` to a configuration error, everything
else to `Error in {name}: {e}`); its result is the list of text contents
plus the trace of attempted network operations.  The result type has no
exception alternative precisely because the source catches `Exception`. -/
def dispatchHandler (now : PyDateTime) (collab : Collab) (name : String)
    (args : Arguments) : HRes :=
  if name = "search_web_semantic" then search_web_semantic collab args
  else if name = "extract_page_content" then extract_page_content collab args
  else if name = "find_similar_pages" then find_similar_pages collab args
  else if name = "search_recent_content" then search_recent_content now collab args
  else if name = "search_by_example_text" then search_by_example_text collab args
  else HRes.returned ["Unknown tool: " ++ name] []

/-- The `except ValueError` / `except Exception` tail of `handle_call_tool`:
a raised `ValueError` becomes a configuration-error response, any other
raised exception becomes `Error in {name}: {e}`. -/
def hresToPair (name : String) : HRes → List String × List NetOp
  | HRes.returned texts ops => (texts, ops)
  | HRes.raised e =>
    if e.isValueError then (["Configuration Error: " ++ e.msg], [])
    else (["Error in " ++ name ++ ": " ++ e.msg], [])

def handle_call_tool (env : Option String) (now : PyDateTime) (collab : Collab)
    (name : String) (args : Arguments) : List String × List NetOp :=
  match get_exa_client env with
  | Except.error e => (["Configuration Error: " ++ e.msg], [])
  | Except.ok _ => hresToPair name (dispatchHandler now collab name args)

/-- Whether a usable credential is configured (`EXA_API_KEY` set and
non-empty). -/
def credPresent (env : Option String) : Bool :=
  match env with
  | Option.none => false
  | some k => !(k == "")

/-- Whether the argument mapping supplies the required key of the named
tool (its absence makes the handler raise a `KeyError` before any network
operation). -/
def requiredPresent : String → Arguments → Bool
  | "search_web_semantic", a => a.query.isSome
  | "extract_page_content", a => a.url.isSome
  | "find_similar_pages", a => a.url.isSome
  | "search_recent_content", a => a.query.isSome
  | "search_by_example_text", a => a.text.isSome
  | _, _ => true

/-- The fixed operation-naming head of the collaborator-fault message of
each handler. -/
def opFailHead : String → String
  | "extract_page_content" => "Content extraction failed"
  | "find_similar_pages" => "Similar pages search failed"
  | "search_recent_content" => "Recent content search failed"
  | "search_by_example_text" => "Example text search failed"
  | _ => "Web search failed"

/-! ### The standalone connectivity-check script (`test_connection.py`) -/

/-- The world the connectivity script runs against: the environment
variable, whether the two libraries import, and the collaborator outcomes of
the probes the script performs. -/
structure TestWorld where
  apiKey : Option String
  exaImportOk : Bool
  mcpImportOk : Bool
  searchBasic : CollabOutcome
  contentsBasic : CollabOutcome
  similarBasic : CollabOutcome
  dateFiltered : CollabOutcome
  neuralBasic : CollabOutcome
deriving DecidableEq

/-- `test_environment_setup`: fails exactly when `EXA_API_KEY` is unset or
empty. -/
def test_environment_setup (w : TestWorld) : Bool :=
  match w.apiKey with
  | Option.none => false
  | some k => !(k == "")

/-- `test_exa_import`: the `exa_py` import check. -/
def test_exa_import (w : TestWorld) : Bool := w.exaImportOk

/-- `test_mcp_import`: the `mcp` import check. -/
def test_mcp_import (w : TestWorld) : Bool := w.mcpImportOk

/-- `test_exa_api_connection`: a one-result basic search; any raised fault
(including an import failure inside the `try`) or an empty result list
fails the check. -/
def test_exa_api_connection (w : TestWorld) : Bool :=
  if !w.exaImportOk then false
  else
    match w.searchBasic with
    | CollabOutcome.fault _ => false
    | CollabOutcome.ok r => !r.results.isEmpty

/-- `test_content_extraction`: every branch (success, empty results, raised
fault, import failure) returns `True`; failures only print warnings. -/
def test_content_extraction (w : TestWorld) : Bool :=
  if !w.exaImportOk then true
  else
    match w.contentsBasic with
    | CollabOutcome.fault _ => true
    | CollabOutcome.ok _ => true

/-- `test_similarity_search`: likewise never fails. -/
def test_similarity_search (w : TestWorld) : Bool :=
  if !w.exaImportOk then true
  else
    match w.similarBasic with
    | CollabOutcome.fault _ => true
    | CollabOutcome.ok _ => true

/-- `test_additional_functionality`: the date-filtered and neural probes
only print; every branch returns `True`. -/
def test_additional_functionality (w : TestWorld) : Bool :=
  if !w.exaImportOk then true
  else
    match w.dateFiltered, w.neuralBasic with
    | _, _ => true

/-- `run_all_tests`: runs the seven checks in order; overall success is
`critical_passed == critical_tests` where the critical checks are the first
four. -/
def run_all_tests (w : TestWorld) : Bool :=
  let results := [test_environment_setup w, test_exa_import w, test_mcp_import w,
    test_exa_api_connection w, test_content_extraction w, test_similarity_search w,
    test_additional_functionality w]
  let critical_passed := (results.take 4).countP id
  critical_passed == 4

/-- `sys.exit(0 if success else 1)` at the bottom of the script. -/
def connectionExitCode (w : TestWorld) : Nat :=
  if run_all_tests w then 0 else 1

/-! ### Helper lemmas -/

theorem get_exa_client_of_cred {env : Option String} (h : credPresent env = true) :
    get_exa_client env = Except.ok () := by
  cases env with
  | none => simp [credPresent] at h
  | some k =>
    simp [credPresent] at h
    simp [get_exa_client, h]

theorem get_exa_client_of_nocred {env : Option String} (h : credPresent env = false) :
    get_exa_client env = Except.error ⟨true,
      "EXA_API_KEY environment variable is required. Get your key from https://exa.ai/"⟩ := by
  cases env with
  | none => rfl
  | some k =>
    simp [credPresent] at h
    simp [get_exa_client, h]

theorem handle_call_tool_cred {env : Option String} (h : credPresent env = true)
    (now : PyDateTime) (collab : Collab) (name : String) (args : Arguments) :
    handle_call_tool env now collab name args =
      hresToPair name (dispatchHandler now collab name args) := by
  unfold handle_call_tool
  rw [get_exa_client_of_cred h]

theorem handle_call_tool_nocred {env : Option String} (h : credPresent env = false)
    (now : PyDateTime) (collab : Collab) (name : String) (args : Arguments) :
    handle_call_tool env now collab name args =
      (["Configuration Error: EXA_API_KEY environment variable is required. Get your key from https://exa.ai/"], []) := by
  unfold handle_call_tool
  rw [get_exa_client_of_nocred h]
  rfl

theorem strStarts_self_append (a b : String) : strStarts a (a ++ b) := by
  unfold strStarts
  rw [toList_append]
  exact List.prefix_append _ _

theorem not_strStarts_of_head_ne {pat s : String} {c d : Char}
    (hp : pat.toList.head? = some c) (hs : s.toList.head? = some d) (hne : c ≠ d) :
    ¬ strStarts pat s := by
  intro h
  rcases h with ⟨t, ht⟩
  rw [← ht] at hs
  cases hpl : pat.toList with
  | nil => rw [hpl] at hp; simp at hp
  | cons a l =>
    rw [hpl] at hp hs
    simp only [List.cons_append, List.head?_cons, Option.some.injEq] at hp hs
    exact hne (hp ▸ hs ▸ rfl)

theorem head_append_of_ne {a : String} (x : String) (h : a.toList ≠ []) :
    ((a ++ x).toList).head? = a.toList.head? := by
  rw [toList_append]
  cases hl : a.toList with
  | nil => exact absurd hl h
  | cons c l => rfl

/-- Heads of the possible dispatcher response strings differ from the
head of the unknown-tool tag, so no execution-failure response carries it. -/
theorem not_unknown_tag_of_head {s : String} {d : Char}
    (hs : s.toList.head? = some d) (hne : d ≠ Char.ofNat 85) :
    ¬ strStarts "Unknown tool: " s :=
  not_strStarts_of_head_ne
    (by decide : ("Unknown tool: ").toList.head? = some (Char.ofNat 85)) hs
    (fun h => hne h.symm)

theorem dropWhile_replicate_false {p : Char → Bool} {a : Char} (h : p a = false)
    (n : Nat) : (List.replicate n a).dropWhile p = List.replicate n a := by
  cases n with
  | zero => rfl
  | succ m => simp [List.replicate_succ, List.dropWhile_cons, h]

theorem dropWhile_replicate_true {p : Char → Bool} {a : Char} (h : p a = true)
    (n : Nat) : (List.replicate n a).dropWhile p = [] := by
  induction n with
  | zero => rfl
  | succ m ih => simp [List.replicate_succ, List.dropWhile_cons, h, ih]

theorem toList_mk (l : List Char) : (String.mk l).toList = l := rfl

theorem length_mk (l : List Char) : (String.mk l).length = l.length := rfl

theorem pyStrip_replicate_nonws (a : Char) (h : a.isWhitespace = false) (n : Nat) :
    pyStrip (String.mk (List.replicate n a)) = String.mk (List.replicate n a) := by
  unfold pyStrip
  rw [toList_mk, dropWhile_replicate_false h, List.reverse_replicate,
    dropWhile_replicate_false h, List.reverse_replicate]

theorem pyStrip_replicate_ws {a : Char} (h : a.isWhitespace = true) (n : Nat) :
    pyStrip (String.mk (List.replicate n a)) = "" := by
  unfold pyStrip
  rw [toList_mk, dropWhile_replicate_true h]
  rfl

/-! ### Handler shape lemmas -/

theorem search_web_semantic_fault {collab : Collab} {args : Arguments} {q e : String}
    (hq : args.query = some q)
    (hc : collab (NetOp.search q (args.num_results.getD 5) Option.none Option.none true)
      = CollabOutcome.fault e) :
    search_web_semantic collab args = HRes.returned
      ["Web search failed: " ++ e ++ ". Please check your query and try again."]
      [NetOp.search q (args.num_results.getD 5) Option.none Option.none true] := by
  simp only [search_web_semantic, hq, hc]

theorem search_web_semantic_empty {collab : Collab} {args : Arguments} {q : String}
    (hq : args.query = some q)
    (hc : collab (NetOp.search q (args.num_results.getD 5) Option.none Option.none true)
      = CollabOutcome.ok ⟨[]⟩) :
    search_web_semantic collab args = HRes.returned
      ["No results found for query: " ++ sq ++ q ++ sq ++
        ". Try a different search term or broader query."]
      [NetOp.search q (args.num_results.getD 5) Option.none Option.none true] := by
  simp only [search_web_semantic, hq, hc]
  rfl

theorem search_web_semantic_success {collab : Collab} {args : Arguments} {q : String}
    {rs : List ResultItem} (hq : args.query = some q)
    (hc : collab (NetOp.search q (args.num_results.getD 5) Option.none Option.none true)
      = CollabOutcome.ok ⟨rs⟩) (hne : rs ≠ []) :
    search_web_semantic collab args = HRes.returned
      [emSearch ++ " **Semantic Search Results for: " ++ sq ++ q ++ sq ++ "**\n\n" ++
        "Found " ++ toString rs.length ++ " relevant results:\n\n" ++
        formatResultEntries "Relevance Score" rs]
      [NetOp.search q (args.num_results.getD 5) Option.none Option.none true] := by
  simp only [search_web_semantic, hq, hc]
  simp [List.isEmpty_iff, hne]

theorem extract_page_content_fault {collab : Collab} {args : Arguments} {u e : String}
    (hu : args.url = some u)
    (hc : collab (NetOp.getContents u) = CollabOutcome.fault e) :
    extract_page_content collab args = HRes.returned
      ["Content extraction failed for " ++ u ++ ": " ++ e ++
        ". The page might be blocked or require special access."]
      [NetOp.getContents u] := by
  simp only [extract_page_content, hu, hc]

theorem extract_page_content_empty {collab : Collab} {args : Arguments} {u : String}
    (hu : args.url = some u)
    (hc : collab (NetOp.getContents u) = CollabOutcome.ok ⟨[]⟩) :
    extract_page_content collab args = HRes.returned
      ["Could not extract content from URL: " ++ u ++
        ". The page might be inaccessible or require authentication."]
      [NetOp.getContents u] := by
  simp only [extract_page_content, hu, hc]

theorem extract_page_content_success {collab : Collab} {args : Arguments} {u : String}
    {item : ResultItem} {rest : List ResultItem} (hu : args.url = some u)
    (hc : collab (NetOp.getContents u) = CollabOutcome.ok ⟨item :: rest⟩) :
    extract_page_content collab args = HRes.returned
      [(emPage ++ " **Content Extracted from: " ++ safe_get_attr item.url u ++ "**\n\n")
        ++ (if safe_get_attr item.title "No title available" = "No title available" then ""
            else "**Title:** " ++ safe_get_attr item.title "No title available" ++ "\n\n")
        ++ renderContentSection item.text]
      [NetOp.getContents u] := by
  simp only [extract_page_content, hu, hc]

theorem find_similar_pages_fault {collab : Collab} {args : Arguments} {u e : String}
    (hu : args.url = some u)
    (hc : collab (NetOp.findSimilar u (args.num_results.getD 5)) = CollabOutcome.fault e) :
    find_similar_pages collab args = HRes.returned
      ["Similar pages search failed for " ++ u ++ ": " ++ e ++
        ". Please verify the URL is valid and accessible."]
      [NetOp.findSimilar u (args.num_results.getD 5)] := by
  simp only [find_similar_pages, hu, hc]

theorem find_similar_pages_empty {collab : Collab} {args : Arguments} {u : String}
    (hu : args.url = some u)
    (hc : collab (NetOp.findSimilar u (args.num_results.getD 5)) = CollabOutcome.ok ⟨[]⟩) :
    find_similar_pages collab args = HRes.returned
      ["No similar pages found for: " ++ u ++
        ". Try a different URL or check if the URL is accessible."]
      [NetOp.findSimilar u (args.num_results.getD 5)] := by
  simp only [find_similar_pages, hu, hc]
  rfl

theorem find_similar_pages_success {collab : Collab} {args : Arguments} {u : String}
    {rs : List ResultItem} (hu : args.url = some u)
    (hc : collab (NetOp.findSimilar u (args.num_results.getD 5)) = CollabOutcome.ok ⟨rs⟩)
    (hne : rs ≠ []) :
    find_similar_pages collab args = HRes.returned
      [emLink ++ " **Pages Similar to: " ++ u ++ "**\n\n" ++
        "Found " ++ toString rs.length ++ " similar pages:\n\n" ++
        formatResultEntries "Similarity Score" rs]
      [NetOp.findSimilar u (args.num_results.getD 5)] := by
  simp only [find_similar_pages, hu, hc]
  simp [List.isEmpty_iff, hne]

theorem search_recent_content_trace (now : PyDateTime) (collab : Collab)
    {args : Arguments} {q : String} (hq : args.query = some q) :
    ∃ texts, search_recent_content now collab args = HRes.returned texts
      [NetOp.search q (args.num_results.getD 5)
        (some (strftimeYMD (now.epochDays - (args.days_back.getD 7)))) Option.none true] := by
  simp only [search_recent_content, hq]
  cases collab (NetOp.search q (args.num_results.getD 5)
      (some (strftimeYMD (now.epochDays - (args.days_back.getD 7)))) Option.none true) with
  | fault e => exact ⟨_, rfl⟩
  | ok r =>
    by_cases hr : r.results.isEmpty
    · simp [hr]
    · simp [hr]

theorem search_recent_content_fault {now : PyDateTime} {collab : Collab}
    {args : Arguments} {q e : String} (hq : args.query = some q)
    (hc : collab (NetOp.search q (args.num_results.getD 5)
      (some (strftimeYMD (now.epochDays - (args.days_back.getD 7)))) Option.none true)
      = CollabOutcome.fault e) :
    search_recent_content now collab args = HRes.returned
      ["Recent content search failed: " ++ e ++ ". Please try a different query."]
      [NetOp.search q (args.num_results.getD 5)
        (some (strftimeYMD (now.epochDays - (args.days_back.getD 7)))) Option.none true] := by
  simp only [search_recent_content, hq, hc]

theorem search_recent_content_empty {now : PyDateTime} {collab : Collab}
    {args : Arguments} {q : String} (hq : args.query = some q)
    (hc : collab (NetOp.search q (args.num_results.getD 5)
      (some (strftimeYMD (now.epochDays - (args.days_back.getD 7)))) Option.none true)
      = CollabOutcome.ok ⟨[]⟩) :
    search_recent_content now collab args = HRes.returned
      ["No recent content found for " ++ sq ++ q ++ sq ++ " in the last " ++
        toString (args.days_back.getD 7) ++
        " days. Try a broader query or increase the time range."]
      [NetOp.search q (args.num_results.getD 5)
        (some (strftimeYMD (now.epochDays - (args.days_back.getD 7)))) Option.none true] := by
  simp only [search_recent_content, hq, hc]
  rfl

theorem search_recent_content_success {now : PyDateTime} {collab : Collab}
    {args : Arguments} {q : String} {rs : List ResultItem} (hq : args.query = some q)
    (hc : collab (NetOp.search q (args.num_results.getD 5)
      (some (strftimeYMD (now.epochDays - (args.days_back.getD 7)))) Option.none true)
      = CollabOutcome.ok ⟨rs⟩) (hne : rs ≠ []) :
    search_recent_content now collab args = HRes.returned
      [emClock ++ " **Recent Content for: " ++ sq ++ q ++ sq ++ "** (Last " ++
        toString (args.days_back.getD 7) ++ " days)\n\n" ++
        "Found " ++ toString rs.length ++ " recent results:\n\n" ++
        formatResultEntries "Relevance Score" rs]
      [NetOp.search q (args.num_results.getD 5)
        (some (strftimeYMD (now.epochDays - (args.days_back.getD 7)))) Option.none true] := by
  simp only [search_recent_content, hq, hc]
  simp [List.isEmpty_iff, hne]

theorem search_by_example_text_fault {collab : Collab} {args : Arguments} {x e : String}
    (hx : args.text = some x)
    (hc : collab (NetOp.search x (args.num_results.getD 5) Option.none (some "neural") false)
      = CollabOutcome.fault e) :
    search_by_example_text collab args = HRes.returned
      ["Example text search failed: " ++ e ++ ". Please try a different text sample."]
      [NetOp.search x (args.num_results.getD 5) Option.none (some "neural") false] := by
  simp only [search_by_example_text, hx, hc]

theorem search_by_example_text_empty {collab : Collab} {args : Arguments} {x : String}
    (hx : args.text = some x)
    (hc : collab (NetOp.search x (args.num_results.getD 5) Option.none (some "neural") false)
      = CollabOutcome.ok ⟨[]⟩) :
    search_by_example_text collab args = HRes.returned
      ["No similar content found for the provided text sample. Try a longer or more specific text example."]
      [NetOp.search x (args.num_results.getD 5) Option.none (some "neural") false] := by
  simp only [search_by_example_text, hx, hc]
  rfl

theorem search_by_example_text_success {collab : Collab} {args : Arguments} {x : String}
    {rs : List ResultItem} (hx : args.text = some x)
    (hc : collab (NetOp.search x (args.num_results.getD 5) Option.none (some "neural") false)
      = CollabOutcome.ok ⟨rs⟩) (hne : rs ≠ []) :
    search_by_example_text collab args = HRes.returned
      [emMemo ++ " **Content Similar to Example Text:**\n\n" ++
        "**Example:** " ++ (if x.length > 200 then takeChars 200 x ++ "..." else x) ++ "\n\n" ++
        "Found " ++ toString rs.length ++ " similar results:\n\n" ++
        formatResultEntries "Similarity Score" rs]
      [NetOp.search x (args.num_results.getD 5) Option.none (some "neural") false] := by
  simp only [search_by_example_text, hx, hc]
  simp [List.isEmpty_iff, hne]

/-! ### Missing-required-argument lemmas -/

theorem search_web_semantic_raised {collab : Collab} {args : Arguments}
    (hq : args.query = Option.none) :
    search_web_semantic collab args = HRes.raised (keyError "query") := by
  simp only [search_web_semantic, hq]

theorem extract_page_content_raised {collab : Collab} {args : Arguments}
    (hu : args.url = Option.none) :
    extract_page_content collab args = HRes.raised (keyError "url") := by
  simp only [extract_page_content, hu]

theorem find_similar_pages_raised {collab : Collab} {args : Arguments}
    (hu : args.url = Option.none) :
    find_similar_pages collab args = HRes.raised (keyError "url") := by
  simp only [find_similar_pages, hu]

theorem search_recent_content_raised {now : PyDateTime} {collab : Collab}
    {args : Arguments} (hq : args.query = Option.none) :
    search_recent_content now collab args = HRes.raised (keyError "query") := by
  simp only [search_recent_content, hq]

theorem search_by_example_text_raised {collab : Collab} {args : Arguments}
    (hx : args.text = Option.none) :
    search_by_example_text collab args = HRes.raised (keyError "text") := by
  simp only [search_by_example_text, hx]

/-! ### Dispatch reduction and the single-response invariant -/

theorem dispatch_swcs (now : PyDateTime) (collab : Collab) (args : Arguments) :
    dispatchHandler now collab "search_web_semantic" args =
      search_web_semantic collab args := rfl

theorem dispatch_epc (now : PyDateTime) (collab : Collab) (args : Arguments) :
    dispatchHandler now collab "extract_page_content" args =
      extract_page_content collab args := rfl

theorem dispatch_fsp (now : PyDateTime) (collab : Collab) (args : Arguments) :
    dispatchHandler now collab "find_similar_pages" args =
      find_similar_pages collab args := rfl

theorem dispatch_src (now : PyDateTime) (collab : Collab) (args : Arguments) :
    dispatchHandler now collab "search_recent_content" args =
      search_recent_content now collab args := rfl

theorem dispatch_sbet (now : PyDateTime) (collab : Collab) (args : Arguments) :
    dispatchHandler now collab "search_by_example_text" args =
      search_by_example_text collab args := rfl

theorem dispatch_unknown {name : String} (hn : name ∉ toolNames)
    (now : PyDateTime) (collab : Collab) (args : Arguments) :
    dispatchHandler now collab name args = HRes.returned ["Unknown tool: " ++ name] [] := by
  simp only [toolNames, List.mem_cons, List.not_mem_nil, or_false, not_or] at hn
  obtain ⟨h1, h2, h3, h4, h5⟩ := hn
  simp only [dispatchHandler, if_neg h1, if_neg h2, if_neg h3, if_neg h4, if_neg h5]

/-- Every handler outcome that is returned (not raised) carries exactly one
text content. -/
def HResSingle : HRes → Prop
  | HRes.returned texts _ => texts.length = 1
  | HRes.raised _ => True

theorem search_web_semantic_single (collab : Collab) (args : Arguments) :
    HResSingle (search_web_semantic collab args) := by
  cases hq : args.query with
  | none => rw [search_web_semantic_raised hq]; trivial
  | some q =>
    cases hc : collab (NetOp.search q (args.num_results.getD 5) Option.none Option.none true) with
    | fault e => rw [search_web_semantic_fault hq hc]; exact rfl
    | ok r =>
      obtain ⟨rs⟩ := r
      cases rs with
      | nil => rw [search_web_semantic_empty hq hc]; exact rfl
      | cons a l =>
        rw [search_web_semantic_success hq hc (by simp)]
        exact rfl

theorem extract_page_content_single (collab : Collab) (args : Arguments) :
    HResSingle (extract_page_content collab args) := by
  cases hu : args.url with
  | none => rw [extract_page_content_raised hu]; trivial
  | some u =>
    cases hc : collab (NetOp.getContents u) with
    | fault e => rw [extract_page_content_fault hu hc]; exact rfl
    | ok r =>
      obtain ⟨rs⟩ := r
      cases rs with
      | nil => rw [extract_page_content_empty hu hc]; exact rfl
      | cons a l => rw [extract_page_content_success hu hc]; exact rfl

theorem find_similar_pages_single (collab : Collab) (args : Arguments) :
    HResSingle (find_similar_pages collab args) := by
  cases hu : args.url with
  | none => rw [find_similar_pages_raised hu]; trivial
  | some u =>
    cases hc : collab (NetOp.findSimilar u (args.num_results.getD 5)) with
    | fault e => rw [find_similar_pages_fault hu hc]; exact rfl
    | ok r =>
      obtain ⟨rs⟩ := r
      cases rs with
      | nil => rw [find_similar_pages_empty hu hc]; exact rfl
      | cons a l =>
        rw [find_similar_pages_success hu hc (by simp)]
        exact rfl

theorem search_recent_content_single (now : PyDateTime) (collab : Collab)
    (args : Arguments) : HResSingle (search_recent_content now collab args) := by
  cases hq : args.query with
  | none => rw [search_recent_content_raised hq]; trivial
  | some q =>
    cases hc : collab (NetOp.search q (args.num_results.getD 5)
        (some (strftimeYMD (now.epochDays - (args.days_back.getD 7)))) Option.none true) with
    | fault e => rw [search_recent_content_fault hq hc]; exact rfl
    | ok r =>
      obtain ⟨rs⟩ := r
      cases rs with
      | nil => rw [search_recent_content_empty hq hc]; exact rfl
      | cons a l =>
        rw [search_recent_content_success hq hc (by simp)]
        exact rfl

theorem search_by_example_text_single (collab : Collab) (args : Arguments) :
    HResSingle (search_by_example_text collab args) := by
  cases hx : args.text with
  | none => rw [search_by_example_text_raised hx]; trivial
  | some x =>
    cases hc : collab (NetOp.search x (args.num_results.getD 5) Option.none (some "neural") false) with
    | fault e => rw [search_by_example_text_fault hx hc]; exact rfl
    | ok r =>
      obtain ⟨rs⟩ := r
      cases rs with
      | nil => rw [search_by_example_text_empty hx hc]; exact rfl
      | cons a l =>
        rw [search_by_example_text_success hx hc (by simp)]
        exact rfl

theorem dispatch_single (now : PyDateTime) (collab : Collab) (name : String)
    (args : Arguments) : HResSingle (dispatchHandler now collab name args) := by
  unfold dispatchHandler
  repeat' split
  · exact search_web_semantic_single collab args
  · exact extract_page_content_single collab args
  · exact find_similar_pages_single collab args
  · exact search_recent_content_single now collab args
  · exact search_by_example_text_single collab args
  · simp [HResSingle]

theorem hresToPair_single (name : String) (h : HRes) (hs : HResSingle h) :
    (hresToPair name h).1.length = 1 := by
  cases h with
  | returned texts ops => simpa [hresToPair, HResSingle] using hs
  | raised e =>
    by_cases hv : e.isValueError = true <;> simp [hresToPair, hv]

/-- The dispatcher always returns exactly one text content, whatever the
environment, collaborator, name and arguments. -/
theorem handle_call_tool_single (env : Option String) (now : PyDateTime)
    (collab : Collab) (name : String) (args : Arguments) :
    (handle_call_tool env now collab name args).1.length = 1 := by
  unfold handle_call_tool
  cases hge : get_exa_client env with
  | error e => rfl
  | ok u => exact hresToPair_single name _ (dispatch_single now collab name args)

theorem strContains_self (s : String) : strContains s s := List.infix_refl _

theorem head_append_lit {a : String} {c : Char} (x : String)
    (ha : a.toList.head? = some c) : ((a ++ x).toList).head? = some c := by
  rw [head_append_of_ne x (by intro h0; rw [h0] at ha; simp at ha)]
  exact ha

/-- With a usable credential and an always-faulting collaborator, no
response produced for any catalog tool carries the unknown-tool tag. -/
theorem fault_responses_not_unknown {env : Option String} (hc : credPresent env = true)
    (now : PyDateTime) (e : String) (name₂ : String) (args₂ : Arguments) (t : String)
    (hmem : name₂ ∈ toolNames)
    (ht : t ∈ (handle_call_tool env now (fun _ => CollabOutcome.fault e) name₂ args₂).1) :
    ¬ strStarts "Unknown tool: " t := by
  rw [handle_call_tool_cred hc] at ht
  simp only [toolNames, List.mem_cons, List.not_mem_nil, or_false] at hmem
  rcases hmem with h | h | h | h | h
  · subst h
    rw [dispatch_swcs] at ht
    cases hq : args₂.query with
    | none =>
      rw [search_web_semantic_raised hq] at ht
      simp [hresToPair, keyError] at ht
      subst ht
      decide
    | some q =>
      rw [search_web_semantic_fault hq rfl] at ht
      simp [hresToPair] at ht
      subst ht
      exact not_unknown_tag_of_head
        (head_append_lit _ (head_append_lit _
          (by decide : "Web search failed: ".toList.head? = some (Char.ofNat 87)))) (by decide)
  · subst h
    rw [dispatch_epc] at ht
    cases hu : args₂.url with
    | none =>
      rw [extract_page_content_raised hu] at ht
      simp [hresToPair, keyError] at ht
      subst ht
      decide
    | some u =>
      rw [extract_page_content_fault hu rfl] at ht
      simp [hresToPair] at ht
      subst ht
      exact not_unknown_tag_of_head
        (head_append_lit _ (head_append_lit _ (head_append_lit _
          (head_append_lit _
            (by decide : "Content extraction failed for ".toList.head? = some (Char.ofNat 67))))))
        (by decide)
  · subst h
    rw [dispatch_fsp] at ht
    cases hu : args₂.url with
    | none =>
      rw [find_similar_pages_raised hu] at ht
      simp [hresToPair, keyError] at ht
      subst ht
      decide
    | some u =>
      rw [find_similar_pages_fault hu rfl] at ht
      simp [hresToPair] at ht
      subst ht
      exact not_unknown_tag_of_head
        (head_append_lit _ (head_append_lit _ (head_append_lit _
          (head_append_lit _
            (by decide : "Similar pages search failed for ".toList.head? = some (Char.ofNat 83))))))
        (by decide)
  · subst h
    rw [dispatch_src] at ht
    cases hq : args₂.query with
    | none =>
      rw [search_recent_content_raised hq] at ht
      simp [hresToPair, keyError] at ht
      subst ht
      decide
    | some q =>
      rw [search_recent_content_fault hq rfl] at ht
      simp [hresToPair] at ht
      subst ht
      exact not_unknown_tag_of_head
        (head_append_lit _ (head_append_lit _
          (by decide : "Recent content search failed: ".toList.head? = some (Char.ofNat 82))))
        (by decide)
  · subst h
    rw [dispatch_sbet] at ht
    cases hx : args₂.text with
    | none =>
      rw [search_by_example_text_raised hx] at ht
      simp [hresToPair, keyError] at ht
      subst ht
      decide
    | some x =>
      rw [search_by_example_text_fault hx rfl] at ht
      simp [hresToPair] at ht
      subst ht
      exact not_unknown_tag_of_head
        (head_append_lit _ (head_append_lit _
          (by decide : "Example text search failed: ".toList.head? = some (Char.ofNat 69))))
        (by decide)

theorem roundHalfEven_823 : roundHalfEven ((8234567 : ℚ) / 10000000 * 1000) = 823 := by
  unfold roundHalfEven
  have h1 : ((8234567 : ℚ) / 10000000 * 1000) = 8234567 / 10000 := by norm_num
  rw [h1]
  have hf : ⌊(8234567 : ℚ) / 10000⌋ = 823 := by
    rw [Int.floor_eq_iff]
    norm_num
  rw [hf]
  norm_num

theorem formatFixed3_example : formatFixed3 ((8234567 : ℚ) / 10000000) = "0.823" := by
  unfold formatFixed3
  rw [roundHalfEven_823]
  rw [if_neg (by norm_num : ¬ ((8234567 : ℚ) / 10000000 < 0))]
  rfl

/-! ### Claims -/

/-- C2: when the credential environment variable is absent (or empty),
`callTool` on every tool name (known or unknown) and every argument mapping
returns the configuration-error ToolResponse carrying remediation text
(where to obtain the credential), attempts no network operation (empty
trace), and — being an ordinary returned value of the total dispatcher
function — neither raises to the caller nor terminates the process. -/
theorem missing_credential_config_error (env : Option String) (now : PyDateTime)
    (collab : Collab) (name : String) (args : Arguments)
    (h : credPresent env = false) :
    handle_call_tool env now collab name args =
      (["Configuration Error: EXA_API_KEY environment variable is required. Get your key from https://exa.ai/"], [])
    ∧ strContains
        "Configuration Error: EXA_API_KEY environment variable is required. Get your key from https://exa.ai/"
        "Get your key from https://exa.ai/" :=
  ⟨handle_call_tool_nocred h now collab name args, by decide⟩

/-- Witness for C2 at a concrete call: unset environment, a collaborator
that would answer, yet the configuration error with empty network trace
comes back. -/
theorem missing_credential_config_error_witness :
    credPresent Option.none = false
    ∧ handle_call_tool Option.none ⟨0, 0⟩ (fun _ => CollabOutcome.ok ⟨[]⟩)
        "extract_page_content" {} =
      (["Configuration Error: EXA_API_KEY environment variable is required. Get your key from https://exa.ai/"], []) :=
  ⟨rfl, (missing_credential_config_error Option.none ⟨0, 0⟩
    (fun _ => CollabOutcome.ok ⟨[]⟩) "extract_page_content" {} rfl).1⟩

/-- C3: with a usable credential, `callTool` on every name outside the
catalog returns (never raises) the unknown-tool ToolResponse naming the
given tool; its tag `Unknown tool: ` is a form no execution-failure
response (collaborator fault or missing-argument error, for any catalog
tool and any arguments) ever starts with. -/
theorem unknown_tool_response (env : Option String) (now : PyDateTime)
    (collab : Collab) (name : String) (args : Arguments)
    (hc : credPresent env = true) (hn : name ∉ toolNames) :
    handle_call_tool env now collab name args = (["Unknown tool: " ++ name], [])
    ∧ strStarts "Unknown tool: " ("Unknown tool: " ++ name)
    ∧ (∀ (name₂ : String) (args₂ : Arguments) (e : String) (t : String),
        name₂ ∈ toolNames →
        t ∈ (handle_call_tool env now (fun _ => CollabOutcome.fault e) name₂ args₂).1 →
        ¬ strStarts "Unknown tool: " t) := by
  refine ⟨?_, strStarts_self_append _ _, ?_⟩
  · rw [handle_call_tool_cred hc, dispatch_unknown hn]
    rfl
  · intro name₂ args₂ e t hmem ht
    exact fault_responses_not_unknown hc now e name₂ args₂ t hmem ht

/-- Witness for C3: the unknown name `frobnicate` with a present credential
yields exactly the unknown-tool response and no network operation. -/
theorem unknown_tool_response_witness :
    credPresent (some "k") = true
    ∧ handle_call_tool (some "k") ⟨0, 0⟩ (fun _ => CollabOutcome.ok ⟨[]⟩)
        "frobnicate" {} = (["Unknown tool: " ++ "frobnicate"], []) :=
  ⟨rfl, (unknown_tool_response (some "k") ⟨0, 0⟩ (fun _ => CollabOutcome.ok ⟨[]⟩)
    "frobnicate" {} rfl (by decide)).1⟩

/-- C9: the credential check precedes the tool-name lookup: with the
credential absent the response is the configuration error for every name
(including names outside the catalog) and never carries the unknown-tool
tag; the unknown-tool response only arises when the credential is
present. -/
theorem credential_check_precedes_lookup (env : Option String) (now : PyDateTime)
    (collab : Collab) (name : String) (args : Arguments) :
    (credPresent env = false →
      (handle_call_tool env now collab name args).1 =
        ["Configuration Error: EXA_API_KEY environment variable is required. Get your key from https://exa.ai/"]
      ∧ ∀ t ∈ (handle_call_tool env now collab name args).1,
          ¬ strStarts "Unknown tool: " t)
    ∧ (credPresent env = true → name ∉ toolNames →
      (handle_call_tool env now collab name args).1 = ["Unknown tool: " ++ name]) := by
  constructor
  · intro h
    rw [handle_call_tool_nocred h]
    refine ⟨rfl, ?_⟩
    intro t ht
    simp only [List.mem_singleton] at ht
    subst ht
    decide
  · intro hc hn
    rw [handle_call_tool_cred hc, dispatch_unknown hn]
    rfl

/-- Witness for C9: an unknown name with no credential gets the
configuration error; the same call with a credential gets the unknown-tool
response. -/
theorem credential_check_precedes_lookup_witness :
    (handle_call_tool Option.none ⟨0, 0⟩ (fun _ => CollabOutcome.ok ⟨[]⟩)
      "frobnicate" {}).1 =
      ["Configuration Error: EXA_API_KEY environment variable is required. Get your key from https://exa.ai/"]
    ∧ (handle_call_tool (some "k") ⟨0, 0⟩ (fun _ => CollabOutcome.ok ⟨[]⟩)
      "frobnicate" {}).1 = ["Unknown tool: " ++ "frobnicate"] :=
  ⟨((credential_check_precedes_lookup Option.none ⟨0, 0⟩
      (fun _ => CollabOutcome.ok ⟨[]⟩) "frobnicate" {}).1 rfl).1,
    (credential_check_precedes_lookup (some "k") ⟨0, 0⟩
      (fun _ => CollabOutcome.ok ⟨[]⟩) "frobnicate" {}).2 rfl (by decide)⟩

/-- C8: the connectivity script exits 0 exactly when the four critical
checks (environment variable, the two library imports, basic API
connectivity) succeed, and the exit code is insensitive to everything the
non-critical checks (extraction, similarity, supplementary probes) look
at. -/
theorem connection_exit_code_policy (w : TestWorld) :
    (connectionExitCode w = 0 ↔
      (test_environment_setup w = true ∧ test_exa_import w = true ∧
        test_mcp_import w = true ∧ test_exa_api_connection w = true))
    ∧ (∀ w₂ : TestWorld, w₂.apiKey = w.apiKey → w₂.exaImportOk = w.exaImportOk →
        w₂.mcpImportOk = w.mcpImportOk → w₂.searchBasic = w.searchBasic →
        connectionExitCode w₂ = connectionExitCode w) := by
  have hrun : ∀ v : TestWorld, run_all_tests v =
      (test_environment_setup v && test_exa_import v && test_mcp_import v &&
        test_exa_api_connection v) := by
    intro v
    unfold run_all_tests
    cases h1 : test_environment_setup v <;> cases h2 : test_exa_import v <;>
      cases h3 : test_mcp_import v <;> cases h4 : test_exa_api_connection v <;> rfl
  constructor
  · unfold connectionExitCode
    rw [hrun w]
    cases h1 : test_environment_setup w <;> cases h2 : test_exa_import w <;>
      cases h3 : test_mcp_import w <;> cases h4 : test_exa_api_connection w <;> simp
  · intro w₂ ha hb hc hd
    unfold connectionExitCode
    rw [hrun w, hrun w₂]
    have e1 : test_environment_setup w₂ = test_environment_setup w := by
      unfold test_environment_setup
      rw [ha]
    have e2 : test_exa_import w₂ = test_exa_import w := hb
    have e3 : test_mcp_import w₂ = test_mcp_import w := hc
    have e4 : test_exa_api_connection w₂ = test_exa_api_connection w := by
      unfold test_exa_api_connection
      rw [hb, hd]
    rw [e1, e2, e3, e4]

/-- Witness for C8: a fully healthy world exits 0; failing only the
non-critical content-extraction probe leaves the exit code unchanged. -/
theorem connection_exit_code_policy_witness :
    connectionExitCode ⟨some "k", true, true, CollabOutcome.ok ⟨[{}]⟩,
      CollabOutcome.ok ⟨[{}]⟩, CollabOutcome.ok ⟨[{}]⟩, CollabOutcome.ok ⟨[{}]⟩,
      CollabOutcome.ok ⟨[{}]⟩⟩ = 0
    ∧ connectionExitCode ⟨some "k", true, true, CollabOutcome.ok ⟨[{}]⟩,
      CollabOutcome.fault "blocked", CollabOutcome.fault "blocked",
      CollabOutcome.fault "blocked", CollabOutcome.fault "blocked"⟩ = 0 := by
  have h1 := (connection_exit_code_policy ⟨some "k", true, true,
    CollabOutcome.ok ⟨[{}]⟩, CollabOutcome.ok ⟨[{}]⟩, CollabOutcome.ok ⟨[{}]⟩,
    CollabOutcome.ok ⟨[{}]⟩, CollabOutcome.ok ⟨[{}]⟩⟩).1.mpr
    ⟨rfl, rfl, rfl, rfl⟩
  have h2 := (connection_exit_code_policy ⟨some "k", true, true,
    CollabOutcome.ok ⟨[{}]⟩, CollabOutcome.ok ⟨[{}]⟩, CollabOutcome.ok ⟨[{}]⟩,
    CollabOutcome.ok ⟨[{}]⟩, CollabOutcome.ok ⟨[{}]⟩⟩).2
    ⟨some "k", true, true, CollabOutcome.ok ⟨[{}]⟩, CollabOutcome.fault "blocked",
      CollabOutcome.fault "blocked", CollabOutcome.fault "blocked",
      CollabOutcome.fault "blocked"⟩ rfl rfl rfl rfl
  exact ⟨h1, h2.trans h1⟩

/-- C4: the score formatter satisfies the three-way fallback — absent
scores render as `N/A`, float-convertible scores render in three-decimal
fixed notation (`0.8234567` gives `0.823`), non-convertible values pass
through as their literal string form (`high` gives `high`) — and every
score rendered in a numbered result entry, in each of the four
list-returning handlers, goes through this one function. -/
theorem score_three_way_fallback :
    safe_format_score Option.none = "N/A"
    ∧ (∀ q : ℚ, safe_format_score (some (PyVal.num q)) = formatFixed3 q)
    ∧ safe_format_score (some (PyVal.num (8234567 / 10000000))) = "0.823"
    ∧ (∀ s : String, pyFloatOfString s = Option.none →
        safe_format_score (some (PyVal.str s)) = s)
    ∧ safe_format_score (some (PyVal.str "high")) = "high"
    ∧ (∀ (label : String) (i : Nat) (r : ResultItem),
        strContains (formatResultEntry label i r)
          (emStar ++ " " ++ label ++ ": " ++ safe_format_score r.score ++ "\n"))
    ∧ (∀ (collab : Collab) (args : Arguments) (q : String) (rs : List ResultItem),
        args.query = some q →
        collab (NetOp.search q (args.num_results.getD 5) Option.none Option.none true)
          = CollabOutcome.ok ⟨rs⟩ → rs ≠ [] →
        ∃ t op, search_web_semantic collab args = HRes.returned [t] [op]
          ∧ strContains t (formatResultEntries "Relevance Score" rs))
    ∧ (∀ (collab : Collab) (args : Arguments) (u : String) (rs : List ResultItem),
        args.url = some u →
        collab (NetOp.findSimilar u (args.num_results.getD 5)) = CollabOutcome.ok ⟨rs⟩ →
        rs ≠ [] →
        ∃ t op, find_similar_pages collab args = HRes.returned [t] [op]
          ∧ strContains t (formatResultEntries "Similarity Score" rs))
    ∧ (∀ (now : PyDateTime) (collab : Collab) (args : Arguments) (q : String)
        (rs : List ResultItem),
        args.query = some q →
        collab (NetOp.search q (args.num_results.getD 5)
          (some (strftimeYMD (now.epochDays - (args.days_back.getD 7)))) Option.none true)
          = CollabOutcome.ok ⟨rs⟩ → rs ≠ [] →
        ∃ t op, search_recent_content now collab args = HRes.returned [t] [op]
          ∧ strContains t (formatResultEntries "Relevance Score" rs))
    ∧ (∀ (collab : Collab) (args : Arguments) (x : String) (rs : List ResultItem),
        args.text = some x →
        collab (NetOp.search x (args.num_results.getD 5) Option.none (some "neural") false)
          = CollabOutcome.ok ⟨rs⟩ → rs ≠ [] →
        ∃ t op, search_by_example_text collab args = HRes.returned [t] [op]
          ∧ strContains t (formatResultEntries "Similarity Score" rs)) := by
  refine ⟨rfl, fun q => rfl, formatFixed3_example, ?_, by decide, ?_, ?_, ?_, ?_, ?_⟩
  · intro s h
    simp [safe_format_score, h]
  · intro label i r
    unfold formatResultEntry
    exact strContains_left (strContains_left (strContains_right (strContains_self _) _) _) _
  · intro collab args q rs hq hc hne
    refine ⟨_, _, search_web_semantic_success hq hc hne, ?_⟩
    exact strContains_right (strContains_self _) _
  · intro collab args u rs hu hc hne
    refine ⟨_, _, find_similar_pages_success hu hc hne, ?_⟩
    exact strContains_right (strContains_self _) _
  · intro now collab args q rs hq hc hne
    refine ⟨_, _, search_recent_content_success hq hc hne, ?_⟩
    exact strContains_right (strContains_self _) _
  · intro collab args x rs hx hc hne
    refine ⟨_, _, search_by_example_text_success hx hc hne, ?_⟩
    exact strContains_right (strContains_self _) _

/-- Witness for C4: the fallback rule at the three example inputs, and the
score line of a concrete entry rendered through the formatter. -/
theorem score_three_way_fallback_witness :
    safe_format_score (some (PyVal.str "high")) = "high"
    ∧ safe_format_score (some (PyVal.num (8234567 / 10000000))) = "0.823"
    ∧ strContains (formatResultEntry "Relevance Score" 1 {score := Option.none})
        (emStar ++ " " ++ "Relevance Score" ++ ": " ++
          safe_format_score Option.none ++ "\n") :=
  ⟨score_three_way_fallback.2.2.2.2.1,
    score_three_way_fallback.2.2.1,
    score_three_way_fallback.2.2.2.2.2.1 "Relevance Score" 1 {score := Option.none}⟩

/-- C7: for every call of the recency-filtered search tool, the single
network operation attempted carries a start-publish-date filter equal to
the current date minus `days_back` days (with `days_back` read from the
arguments and defaulting to 7 when omitted), rendered by the date-only
`%Y-%m-%d` format; the filter depends only on the date component of the
clock, never on its time-of-day component. -/
theorem recency_start_date_filter (env : Option String) (now : PyDateTime)
    (collab : Collab) (args : Arguments) (q : String)
    (hc : credPresent env = true) (hq : args.query = some q) :
    (handle_call_tool env now collab "search_recent_content" args).2 =
      [NetOp.search q (args.num_results.getD 5)
        (some (strftimeYMD (now.epochDays - (args.days_back.getD 7)))) Option.none true]
    ∧ (∀ s : Nat,
        (handle_call_tool env ⟨now.epochDays, s⟩ collab "search_recent_content" args).2 =
          (handle_call_tool env now collab "search_recent_content" args).2) := by
  have key : ∀ n : PyDateTime,
      (handle_call_tool env n collab "search_recent_content" args).2 =
        [NetOp.search q (args.num_results.getD 5)
          (some (strftimeYMD (n.epochDays - (args.days_back.getD 7)))) Option.none true] := by
    intro n
    rw [handle_call_tool_cred hc, dispatch_src]
    obtain ⟨texts, ht⟩ := search_recent_content_trace n collab hq
    rw [ht]
    cases texts with
    | nil => rfl
    | cons a l => rfl
  exact ⟨key now, fun s => by rw [key ⟨now.epochDays, s⟩, key now]⟩

/-- Witness for C7: on epoch day 20000 (2024-10-04), `days_back = 30` yields
the filter `2024-09-04` and an omitted `days_back` yields the default-7
filter `2024-09-27`, independent of the time of day. -/
theorem recency_start_date_filter_witness :
    (handle_call_tool (some "k") ⟨20000, 12345⟩ (fun _ => CollabOutcome.ok ⟨[]⟩)
      "search_recent_content" {query := some "ai", days_back := some 30}).2 =
      [NetOp.search "ai" 5 (some "2024-09-04") Option.none true]
    ∧ (handle_call_tool (some "k") ⟨20000, 54321⟩ (fun _ => CollabOutcome.ok ⟨[]⟩)
      "search_recent_content" {query := some "ai"}).2 =
      [NetOp.search "ai" 5 (some "2024-09-27") Option.none true] := by
  constructor
  · have h := (recency_start_date_filter (some "k") ⟨20000, 12345⟩
      (fun _ => CollabOutcome.ok ⟨[]⟩) {query := some "ai", days_back := some 30}
      "ai" rfl rfl).1
    rw [h]
    rfl
  · have h := (recency_start_date_filter (some "k") ⟨20000, 54321⟩
      (fun _ => CollabOutcome.ok ⟨[]⟩) {query := some "ai"} "ai" rfl rfl).1
    rw [h]
    rfl

/-- C1 counterexample: a collaborator fault during the semantic-search
handler is converted to a single response, but the text of that response does
not contain the tool name `search_web_semantic` — the per-handler fault
messages name the operation (`Web search failed`), not the catalog name, so
the claim as stated fails at this input. -/
theorem collaborator_fault_counterexample :
    (handle_call_tool (some "key") ⟨20000, 0⟩ (fun _ => CollabOutcome.fault "boom")
      "search_web_semantic" {query := some "q"}).1 =
      ["Web search failed: boom. Please check your query and try again."]
    ∧ ¬ strContains "Web search failed: boom. Please check your query and try again."
        "search_web_semantic" := by
  exact ⟨rfl, by decide⟩

/-- C1 (amended): for each of the five advertised tools called with its
required argument present, every collaborator fault is converted to a
single ToolResponse (never propagated) whose text starts with the fixed
human-readable description of the failed operation and contains the fault
message; and the dispatcher answers every subsequent call with exactly one
well-formed response. -/
theorem collaborator_fault_response (env : Option String) (now : PyDateTime)
    (name : String) (args : Arguments) (e : String)
    (hc : credPresent env = true) (hn : name ∈ toolNames)
    (hr : requiredPresent name args = true) :
    (∃ t op,
      handle_call_tool env now (fun _ => CollabOutcome.fault e) name args = ([t], [op])
      ∧ strContains t e ∧ strStarts (opFailHead name) t)
    ∧ (∀ (now₂ : PyDateTime) (collab₂ : Collab) (name₂ : String) (args₂ : Arguments),
        (handle_call_tool env now₂ collab₂ name₂ args₂).1.length = 1) := by
  refine ⟨?_, fun now₂ collab₂ name₂ args₂ =>
    handle_call_tool_single env now₂ collab₂ name₂ args₂⟩
  simp only [toolNames, List.mem_cons, List.not_mem_nil, or_false] at hn
  rcases hn with h | h | h | h | h
  · subst h
    simp only [requiredPresent, Option.isSome_iff_exists] at hr
    obtain ⟨q, hq⟩ := hr
    rw [handle_call_tool_cred hc, dispatch_swcs, search_web_semantic_fault hq rfl]
    refine ⟨_, _, rfl, ?_, ?_⟩
    · exact strContains_left (strContains_right (strContains_self e) _) _
    · exact strStarts_of_append (strStarts_of_append (by decide) e) _
  · subst h
    simp only [requiredPresent, Option.isSome_iff_exists] at hr
    obtain ⟨u, hu⟩ := hr
    rw [handle_call_tool_cred hc, dispatch_epc, extract_page_content_fault hu rfl]
    refine ⟨_, _, rfl, ?_, ?_⟩
    · exact strContains_left (strContains_right (strContains_self e) _) _
    · exact strStarts_of_append (strStarts_of_append (strStarts_of_append
        (strStarts_of_append (by decide) u) _) e) _
  · subst h
    simp only [requiredPresent, Option.isSome_iff_exists] at hr
    obtain ⟨u, hu⟩ := hr
    rw [handle_call_tool_cred hc, dispatch_fsp, find_similar_pages_fault hu rfl]
    refine ⟨_, _, rfl, ?_, ?_⟩
    · exact strContains_left (strContains_right (strContains_self e) _) _
    · exact strStarts_of_append (strStarts_of_append (strStarts_of_append
        (strStarts_of_append (by decide) u) _) e) _
  · subst h
    simp only [requiredPresent, Option.isSome_iff_exists] at hr
    obtain ⟨q, hq⟩ := hr
    rw [handle_call_tool_cred hc, dispatch_src, search_recent_content_fault hq rfl]
    refine ⟨_, _, rfl, ?_, ?_⟩
    · exact strContains_left (strContains_right (strContains_self e) _) _
    · exact strStarts_of_append (strStarts_of_append (by decide) e) _
  · subst h
    simp only [requiredPresent, Option.isSome_iff_exists] at hr
    obtain ⟨x, hx⟩ := hr
    rw [handle_call_tool_cred hc, dispatch_sbet, search_by_example_text_fault hx rfl]
    refine ⟨_, _, rfl, ?_, ?_⟩
    · exact strContains_left (strContains_right (strContains_self e) _) _
    · exact strStarts_of_append (strStarts_of_append (by decide) e) _

/-- Witness for C1 (amended): a concrete faulting call on the
content-extraction tool, followed by a subsequent call (even to an unknown
name) still answered with exactly one response. -/
theorem collaborator_fault_response_witness :
    credPresent (some "k") = true
    ∧ "extract_page_content" ∈ toolNames
    ∧ (handle_call_tool (some "k") ⟨0, 0⟩ (fun _ => CollabOutcome.ok ⟨[]⟩)
        "frobnicate" {}).1.length = 1 := by
  refine ⟨rfl, by decide, ?_⟩
  exact (collaborator_fault_response (some "k") ⟨0, 0⟩ "extract_page_content"
    {url := some "https://x"} "nope" rfl (by decide) rfl).2
    ⟨0, 0⟩ (fun _ => CollabOutcome.ok ⟨[]⟩) "frobnicate" {}

/-- C6 counterexample: the empty-result message of the example-text tool does
not quote the originating text (`zebra` does not occur in it), so the claim
that the no-results sentence of every tool includes the input verbatim fails at
this input. -/
theorem empty_results_counterexample :
    (handle_call_tool (some "k") ⟨0, 0⟩ (fun _ => CollabOutcome.ok ⟨[]⟩)
      "search_by_example_text" {text := some "zebra"}).1 =
      ["No similar content found for the provided text sample. Try a longer or more specific text example."]
    ∧ ¬ strContains
        "No similar content found for the provided text sample. Try a longer or more specific text example."
        "zebra" := by
  exact ⟨rfl, by decide⟩

/-- C6 (amended): an empty collaborator result list is a normal (non-error)
outcome: each tool returns a single fixed explanatory no-results sentence —
the semantic and recency search tools include the query verbatim and
suggest a broader query, the content-extraction tool includes the URL
verbatim and explains the page might be inaccessible or require
authentication, the similar-pages tool includes the URL verbatim and
suggests trying a different URL, and the example-text tool refers to the
provided sample generically (without quoting it) and suggests a longer or
more specific example. -/
theorem empty_results_responses (env : Option String) (now : PyDateTime)
    (hc : credPresent env = true) :
    (∀ (collab : Collab) (args : Arguments) (q : String),
      args.query = some q →
      collab (NetOp.search q (args.num_results.getD 5) Option.none Option.none true)
        = CollabOutcome.ok ⟨[]⟩ →
      (handle_call_tool env now collab "search_web_semantic" args).1 =
        ["No results found for query: " ++ sq ++ q ++ sq ++
          ". Try a different search term or broader query."]
      ∧ strContains ("No results found for query: " ++ sq ++ q ++ sq ++
          ". Try a different search term or broader query.") q)
    ∧ (∀ (collab : Collab) (args : Arguments) (u : String),
      args.url = some u →
      collab (NetOp.getContents u) = CollabOutcome.ok ⟨[]⟩ →
      (handle_call_tool env now collab "extract_page_content" args).1 =
        ["Could not extract content from URL: " ++ u ++
          ". The page might be inaccessible or require authentication."]
      ∧ strContains ("Could not extract content from URL: " ++ u ++
          ". The page might be inaccessible or require authentication.") u)
    ∧ (∀ (collab : Collab) (args : Arguments) (u : String),
      args.url = some u →
      collab (NetOp.findSimilar u (args.num_results.getD 5)) = CollabOutcome.ok ⟨[]⟩ →
      (handle_call_tool env now collab "find_similar_pages" args).1 =
        ["No similar pages found for: " ++ u ++
          ". Try a different URL or check if the URL is accessible."]
      ∧ strContains ("No similar pages found for: " ++ u ++
          ". Try a different URL or check if the URL is accessible.") u)
    ∧ (∀ (collab : Collab) (args : Arguments) (q : String),
      args.query = some q →
      collab (NetOp.search q (args.num_results.getD 5)
        (some (strftimeYMD (now.epochDays - (args.days_back.getD 7)))) Option.none true)
        = CollabOutcome.ok ⟨[]⟩ →
      (handle_call_tool env now collab "search_recent_content" args).1 =
        ["No recent content found for " ++ sq ++ q ++ sq ++ " in the last " ++
          toString (args.days_back.getD 7) ++
          " days. Try a broader query or increase the time range."]
      ∧ strContains ("No recent content found for " ++ sq ++ q ++ sq ++ " in the last " ++
          toString (args.days_back.getD 7) ++
          " days. Try a broader query or increase the time range.") q)
    ∧ (∀ (collab : Collab) (args : Arguments) (x : String),
      args.text = some x →
      collab (NetOp.search x (args.num_results.getD 5) Option.none (some "neural") false)
        = CollabOutcome.ok ⟨[]⟩ →
      (handle_call_tool env now collab "search_by_example_text" args).1 =
        ["No similar content found for the provided text sample. Try a longer or more specific text example."]) := by
  refine ⟨?_, ?_, ?_, ?_, ?_⟩
  · intro collab args q hq hcoll
    rw [handle_call_tool_cred hc, dispatch_swcs, search_web_semantic_empty hq hcoll]
    exact ⟨rfl, strContains_left (strContains_mid _ q _) _⟩
  · intro collab args u hu hcoll
    rw [handle_call_tool_cred hc, dispatch_epc, extract_page_content_empty hu hcoll]
    exact ⟨rfl, strContains_left (strContains_right (strContains_self u) _) _⟩
  · intro collab args u hu hcoll
    rw [handle_call_tool_cred hc, dispatch_fsp, find_similar_pages_empty hu hcoll]
    exact ⟨rfl, strContains_left (strContains_right (strContains_self u) _) _⟩
  · intro collab args q hq hcoll
    rw [handle_call_tool_cred hc, dispatch_src, search_recent_content_empty hq hcoll]
    refine ⟨rfl, ?_⟩
    exact strContains_left (strContains_left (strContains_left
      (strContains_mid _ q _) _) _) _
  · intro collab args x hx hcoll
    rw [handle_call_tool_cred hc, dispatch_sbet, search_by_example_text_empty hx hcoll]
    rfl

/-- Witness for C6 (amended): a concrete empty semantic search includes the
query verbatim in its no-results sentence. -/
theorem empty_results_responses_witness :
    (handle_call_tool (some "k") ⟨0, 0⟩ (fun _ => CollabOutcome.ok ⟨[]⟩)
      "search_web_semantic" {query := some "qq"}).1 =
      ["No results found for query: " ++ sq ++ "qq" ++ sq ++
        ". Try a different search term or broader query."]
    ∧ strContains ("No results found for query: " ++ sq ++ "qq" ++ sq ++
        ". Try a different search term or broader query.") "qq" :=
  (empty_results_responses (some "k") ⟨0, 0⟩ rfl).1
    (fun _ => CollabOutcome.ok ⟨[]⟩) {query := some "qq"} "qq" rfl rfl

theorem pyStrip_pad_example :
    pyStrip (String.mk (Char.ofNat 32 :: Char.ofNat 32 ::
      List.replicate 3001 (Char.ofNat 97))) =
    String.mk (List.replicate 3001 (Char.ofNat 97)) := by
  unfold pyStrip
  rw [toList_mk, List.dropWhile_cons, if_pos (by decide), List.dropWhile_cons,
    if_pos (by decide), dropWhile_replicate_false (by decide), List.reverse_replicate,
    dropWhile_replicate_false (by decide), List.reverse_replicate]

theorem takeChars_replicate :
    takeChars 3000 (String.mk (List.replicate 3001 (Char.ofNat 97))) =
    String.mk (List.replicate 3000 (Char.ofNat 97)) := by
  unfold takeChars
  rw [toList_mk, List.take_replicate]
  norm_num

/-- C5 counterexample: a raw text body of 3001 characters (all spaces) has
length strictly greater than 3000, yet the extraction response contains no
truncation marker at all — the handler strips the body first and the
stripped text is empty, so the claim stated over the raw body length fails
at this input. -/
theorem truncation_threshold_counterexample :
    (String.mk (List.replicate 3001 (Char.ofNat 32))).length = 3001
    ∧ (handle_call_tool (some "k") ⟨0, 0⟩
        (fun _ => CollabOutcome.ok ⟨[⟨Option.none, some "https://x", Option.none,
          Option.none, some (String.mk (List.replicate 3001 (Char.ofNat 32)))⟩]⟩)
        "extract_page_content" {url := some "https://x"}).1 =
      [emPage ++ " **Content Extracted from: https://x**\n\n" ++ "**Content:**\n"]
    ∧ ¬ strContains
        (emPage ++ " **Content Extracted from: https://x**\n\n" ++ "**Content:**\n")
        "Content truncated" := by
  refine ⟨?_, by decide, by decide⟩
  rw [length_mk]
  exact List.length_replicate 3001 _

/-- C5 (amended): the truncation rule of the content-extraction handler is
applied to the whitespace-stripped text body: for a body left unchanged by
stripping, a length strictly above 3000 yields exactly the first 3000
characters plus the marker citing the total length, a non-empty body of
length at most 3000 is returned whole with no marker, and a missing body
yields the fixed could-not-extract sentence. -/
theorem truncation_on_stripped_body (raw : String) (hraw : pyStrip raw = raw) :
    (raw.length > 3000 →
      renderContentSection (some raw) =
        "**Content (first 3000 characters):**\n" ++ takeChars 3000 raw ++ "...\n\n" ++
          "*[Content truncated - total length: " ++ toString raw.length ++ " characters]*")
    ∧ (raw ≠ "" → raw.length ≤ 3000 →
      renderContentSection (some raw) = "**Content:**\n" ++ raw)
    ∧ renderContentSection Option.none =
        "**Content:** Unable to extract readable text from this page." := by
  refine ⟨?_, ?_, rfl⟩
  · intro hlen
    have hne : raw ≠ "" := by
      intro h0
      rw [h0] at hlen
      exact absurd hlen (by decide)
    simp only [renderContentSection, if_neg hne, hraw]
    rw [if_pos hlen]
  · intro hne hlen
    simp only [renderContentSection, if_neg hne, hraw]
    rw [if_neg (by omega)]

/-- Witness for C5 (amended): a stripped body of exactly 3001 characters is
truncated to its first 3000 with the marker citing 3001; a body of exactly
3000 characters comes back whole with no marker. -/
theorem truncation_on_stripped_body_witness :
    renderContentSection (some (String.mk (List.replicate 3001 (Char.ofNat 97)))) =
      "**Content (first 3000 characters):**\n" ++
        String.mk (List.replicate 3000 (Char.ofNat 97)) ++ "...\n\n" ++
        "*[Content truncated - total length: " ++ "3001" ++ " characters]*"
    ∧ renderContentSection (some (String.mk (List.replicate 3000 (Char.ofNat 97)))) =
      "**Content:**\n" ++ String.mk (List.replicate 3000 (Char.ofNat 97)) := by
  constructor
  · have h := (truncation_on_stripped_body _ (pyStrip_replicate_nonws (Char.ofNat 97) (by decide) 3001)).1
      (by rw [length_mk, List.length_replicate]; norm_num)
    rw [h, takeChars_replicate, length_mk, List.length_replicate]
    rfl
  · have hne : (String.mk (List.replicate 3000 (Char.ofNat 97))) ≠ "" := by
      intro h0
      have h2 := congrArg String.length h0
      rw [length_mk, List.length_replicate] at h2
      exact absurd h2 (by decide)
    exact (truncation_on_stripped_body _ (pyStrip_replicate_nonws (Char.ofNat 97) (by decide) 3000)).2.1
      hne (by rw [length_mk, List.length_replicate])

/-- C10: the content-extraction handler hands the raw upstream text body to
the content section, which strips leading and trailing whitespace before
anything else: the 3000-character threshold is compared against the
stripped length, the returned content is the (possibly whole) prefix of the
stripped text, the truncation marker cites the stripped length, and the
whole section depends only on the stripped text. -/
theorem strip_precedes_truncation :
    (∀ (collab : Collab) (args : Arguments) (u : String) (item : ResultItem)
      (rest : List ResultItem),
      args.url = some u →
      collab (NetOp.getContents u) = CollabOutcome.ok ⟨item :: rest⟩ →
      extract_page_content collab args = HRes.returned
        [(emPage ++ " **Content Extracted from: " ++ safe_get_attr item.url u ++ "**\n\n")
          ++ (if safe_get_attr item.title "No title available" = "No title available" then ""
              else "**Title:** " ++ safe_get_attr item.title "No title available" ++ "\n\n")
          ++ renderContentSection item.text] [NetOp.getContents u])
    ∧ (∀ raw : String, raw ≠ "" →
        ((pyStrip raw).length > 3000 →
          renderContentSection (some raw) =
            "**Content (first 3000 characters):**\n" ++ takeChars 3000 (pyStrip raw) ++
              "...\n\n" ++ "*[Content truncated - total length: " ++
              toString (pyStrip raw).length ++ " characters]*")
        ∧ ((pyStrip raw).length ≤ 3000 →
          renderContentSection (some raw) = "**Content:**\n" ++ pyStrip raw))
    ∧ (∀ raw₁ raw₂ : String, raw₁ ≠ "" → raw₂ ≠ "" → pyStrip raw₁ = pyStrip raw₂ →
        renderContentSection (some raw₁) = renderContentSection (some raw₂)) := by
  have hcore : ∀ raw : String, raw ≠ "" →
      ((pyStrip raw).length > 3000 →
        renderContentSection (some raw) =
          "**Content (first 3000 characters):**\n" ++ takeChars 3000 (pyStrip raw) ++
            "...\n\n" ++ "*[Content truncated - total length: " ++
            toString (pyStrip raw).length ++ " characters]*")
      ∧ ((pyStrip raw).length ≤ 3000 →
        renderContentSection (some raw) = "**Content:**\n" ++ pyStrip raw) := by
    intro raw hne
    constructor
    · intro hlen
      simp only [renderContentSection, if_neg hne]
      rw [if_pos hlen]
    · intro hlen
      simp only [renderContentSection, if_neg hne]
      rw [if_neg (by omega)]
  refine ⟨fun collab args u item rest hu hcoll =>
    extract_page_content_success hu hcoll, hcore, ?_⟩
  intro raw₁ raw₂ h1 h2 hs
  by_cases hl : (pyStrip raw₁).length > 3000
  · rw [(hcore raw₁ h1).1 hl, (hcore raw₂ h2).1 (by rw [← hs]; exact hl), hs]
  · have hle : (pyStrip raw₁).length ≤ 3000 := by omega
    rw [(hcore raw₁ h1).2 hle, (hcore raw₂ h2).2 (by rw [← hs]; exact hle), hs]

/-- Witness for C10: a body padded with whitespace around 3001 letters has
raw length 3003, but the truncation compares, truncates and cites the
stripped text: first 3000 letters and total length 3001 (not 3003). -/
theorem strip_precedes_truncation_witness :
    (String.mk (Char.ofNat 32 :: Char.ofNat 32 ::
      List.replicate 3001 (Char.ofNat 97))).length = 3003
    ∧ renderContentSection (some (String.mk (Char.ofNat 32 :: Char.ofNat 32 ::
        List.replicate 3001 (Char.ofNat 97)))) =
      "**Content (first 3000 characters):**\n" ++
        String.mk (List.replicate 3000 (Char.ofNat 97)) ++ "...\n\n" ++
        "*[Content truncated - total length: " ++ "3001" ++ " characters]*" := by
  have hne : (String.mk (Char.ofNat 32 :: Char.ofNat 32 ::
      List.replicate 3001 (Char.ofNat 97))) ≠ "" := by
    intro h0
    have h2 := congrArg String.length h0
    rw [length_mk, List.length_cons, List.length_cons, List.length_replicate] at h2
    exact absurd h2 (by decide)
  constructor
  · rw [length_mk, List.length_cons, List.length_cons, List.length_replicate]
  · have h := (strip_precedes_truncation.2.1 _ hne).1
      (by rw [pyStrip_pad_example, length_mk, List.length_replicate]; norm_num)
    rw [h, pyStrip_pad_example, takeChars_replicate, length_mk, List.length_replicate]
    rfl

end ExaMcp
